import Mathlib

/-!
Shallow embedding of the gravitation game's collision / physics / ghost /
timer core (src/level.py, src/entity.py, src/spaceship.py,
src/game_state_manager.py, src/ghost_system.py, src/timer.py).

Positions and velocities are modelled as rationals (the Python code uses
floats but performs only field arithmetic on them in the modelled paths);
pixel coordinates and image dimensions are integers; colors are RGB
triples of naturals.  Python's `int(...)` truncation toward zero is
`pyInt`.  Python tuple unpacking of a 3-tuple into two variables (the
arity bug of `check_spaceship_collisions` call sites) is modelled by
`pyUnpack2` over the tuple's component list.
-/

namespace Gravitation

/-- RGB color triple, as returned by `surface.get_at(...)[:3]`. -/
abbrev Color := ℕ × ℕ × ℕ

/-- Collision classification returned by `Level.check_collision_at_point`. -/
inductive CollisionType
  | SOLID
  | FREE
  | GOAL
  | HAZARD
  | SPECIAL
deriving DecidableEq

open CollisionType

/-- Python `int(q)`: truncation of a rational toward zero. -/
def pyInt (q : ℚ) : ℤ :=
  q.num.tdiv (q.den : ℤ)

/-- The level collision map: dimensions plus the pixel color grid
(`collision_surface.get_at`), from src/level.py. -/
structure Level where
  width : ℤ
  height : ℤ
  pix : ℤ → ℤ → Color

/-- `Level.COLLISION_COLORS` (src/level.py lines 29-35), in Python dict
insertion order. -/
def COLLISION_COLORS : List (CollisionType × Color) :=
  [(SOLID, (0, 0, 0)),
   (FREE, (255, 255, 255)),
   (GOAL, (0, 255, 0)),
   (HAZARD, (255, 0, 0)),
   (SPECIAL, (0, 0, 255))]

/-- `Level.check_collision_at_point` (src/level.py lines 61-90): bounds
check on the raw (possibly fractional) coordinates, then an exact palette
match on the pixel at the truncated coordinates; any unmatched color and
any out-of-bounds coordinate yields SOLID.  (The `except` arm around
`get_at` is unreachable in the model: `pix` is total.) -/
def check_collision_at_point (lvl : Level) (x y : ℚ) : CollisionType :=
  if x < 0 ∨ (lvl.width : ℚ) ≤ x ∨ y < 0 ∨ (lvl.height : ℚ) ≤ y then
    SOLID
  else
    let pixel_color := lvl.pix (pyInt x) (pyInt y)
    match COLLISION_COLORS.find? (fun tc => decide (tc.2 = pixel_color)) with
    | some tc => tc.1
    | none => SOLID

/-- `Level.is_solid_collision` (src/level.py lines 93-105). -/
def is_solid_collision (lvl : Level) (x y : ℚ) : Bool :=
  decide (check_collision_at_point lvl x y = SOLID)

/-- A (possibly rotated) sprite surface: dimensions and the per-pixel
alpha channel (`get_at((px,py))[3]`). -/
structure Sprite where
  width : ℤ
  height : ℤ
  alpha : ℤ → ℤ → ℕ

/-- The integers `a, a+1, ..., b-1` (Python `range(a, b)`). -/
def intRange (a b : ℤ) : List ℤ :=
  (List.range (b - a).toNat).map (fun i => a + i)

/-- The inner pixel loop of `Level.check_spaceship_collisions`
(src/level.py lines 162-197): walk the overlap coordinates accumulating
the special/hazard flags, returning immediately (early exit) with
`solid = true` as soon as a non-transparent ship pixel sits on a SOLID
cell. -/
def scanPixels (lvl : Level) (ship : Sprite) (sxi syi : ℤ) :
    List (ℤ × ℤ) → Bool → Bool → Bool × Bool × Bool
  | [], special, hazard => (false, special, hazard)
  | (lx, ly) :: rest, special, hazard =>
    let spx := lx - sxi
    let spy := ly - syi
    if spx < 0 ∨ ship.width ≤ spx ∨ spy < 0 ∨ ship.height ≤ spy then
      scanPixels lvl ship sxi syi rest special hazard
    else if 0 < ship.alpha spx spy then
      let ct := check_collision_at_point lvl (lx : ℚ) (ly : ℚ)
      if ct = SOLID then
        (true, special, hazard)
      else
        scanPixels lvl ship sxi syi rest
          (special || decide (ct = SPECIAL)) (hazard || decide (ct = HAZARD))
    else
      scanPixels lvl ship sxi syi rest special hazard

/-- `Level.check_spaceship_collisions` (src/level.py lines 123-199):
pixel-perfect footprint test of the rotated sprite placed with top-left
corner at `(sx, sy)` against the level, returning the 3-tuple
`(solid_collision, special_collision, hazard_collision)`. -/
def check_spaceship_collisions (lvl : Level) (ship : Sprite) (sx sy : ℚ) :
    Bool × Bool × Bool :=
  if (lvl.width : ℚ) ≤ sx ∨ (lvl.height : ℚ) ≤ sy ∨
      sx + (ship.width : ℚ) ≤ 0 ∨ sy + (ship.height : ℚ) ≤ 0 then
    (false, false, false)
  else
    let sxi := pyInt sx
    let syi := pyInt sy
    let startX := max 0 sxi
    let endX := min lvl.width (sxi + ship.width)
    let startY := max 0 syi
    let endY := min lvl.height (syi + ship.height)
    let coords :=
      (intRange startX endX).flatMap
        (fun lx => (intRange startY endY).map (fun ly => (lx, ly)))
    scanPixels lvl ship sxi syi coords false false

/-- The components of a Python 3-tuple of booleans, in order, as a list
(the shape seen by a tuple-unpacking assignment). -/
def tupleToList (t : Bool × Bool × Bool) : List Bool :=
  [t.1, t.2.1, t.2.2]

/-- Python unpacking `a, b = e`: succeeds only when `e` has exactly two
components, otherwise raises `ValueError`. -/
def pyUnpack2 (l : List Bool) : Except String (Bool × Bool) :=
  match l with
  | [a, b] => Except.ok (a, b)
  | _ => Except.error "ValueError: too many values to unpack (expected 2)"

/-- Python float modulo `a % b` (used by `Transform.rotate` and
`Transform.set_rotation` with `b = 360`): `a - b * floor (a / b)`. -/
def pyMod (a b : ℚ) : ℚ :=
  a - b * (⌊a / b⌋ : ℚ)

/-- Spaceship physics constants (src/spaceship.py lines 9-13). -/
def GRAVITY : ℚ := 0.12

def ROTATION_SPEED : ℚ := 6

def MAX_VELOCITY : ℚ := 15

def MIN_VELOCITY : ℚ := -15

/-- The ship's `Transform` + `Physics` state (src/entity.py): logical
position, rotation (degrees), velocity, the cached previous position and
the per-entity velocity bounds. -/
structure ShipState where
  x : ℚ
  y : ℚ
  rotation : ℚ
  velocity_x : ℚ
  velocity_y : ℚ
  prev_x : ℚ
  prev_y : ℚ
  min_velocity : ℚ
  max_velocity : ℚ
deriving DecidableEq

/-- `Physics.clamp_velocity` (src/entity.py lines 55-58). -/
def clamp_velocity (s : ShipState) : ShipState :=
  { s with
    velocity_x := max s.min_velocity (min s.max_velocity s.velocity_x)
    velocity_y := max s.min_velocity (min s.max_velocity s.velocity_y) }

/-- `Physics.apply_gravity` via `Spaceship.apply_gravity`
(src/entity.py lines 51-53, src/spaceship.py lines 80-82). -/
def apply_gravity (s : ShipState) : ShipState :=
  { s with velocity_y := s.velocity_y + GRAVITY }

/-- `Entity.update_physics` (src/entity.py lines 153-163): cache the
previous position, then integrate position by `velocity * delta_time`. -/
def update_physics (dt : ℚ) (s : ShipState) : ShipState :=
  { s with
    prev_x := s.x
    prev_y := s.y
    x := s.x + s.velocity_x * dt
    y := s.y + s.velocity_y * dt }

/-- `Spaceship.update` (src/spaceship.py lines 145-151): apply gravity
every frame, then update physics.  No further step follows. -/
def spaceship_update (dt : ℚ) (s : ShipState) : ShipState :=
  update_physics dt (apply_gravity s)

/-- `Entity.rollback_position` (src/entity.py lines 165-168). -/
def rollback_position (s : ShipState) : ShipState :=
  { s with x := s.prev_x, y := s.prev_y }

/-- `Spaceship.handle_collision` (src/spaceship.py lines 84-101): reverse
velocity on the bounce axes (an `if`/`elif`/`else` chain), roll back to
the previous position, then halve both velocity components. -/
def handle_collision (s : ShipState) (bounce_x bounce_y : Bool) : ShipState :=
  let s1 :=
    if bounce_x then { s with velocity_x := -s.velocity_x }
    else if bounce_y then { s with velocity_y := -s.velocity_y }
    else { s with velocity_x := -s.velocity_x, velocity_y := -s.velocity_y }
  let s2 := rollback_position s1
  { s2 with
    velocity_x := s2.velocity_x * 0.5
    velocity_y := s2.velocity_y * 0.5 }

/-- The ship's `Renderer` image data (src/entity.py lines 69-114): the
base image's dimensions and, for each rotation angle, the rotated image
(`pygame.transform.rotate` of the base image), abstracted as a function
from the rotation to the rotated sprite. -/
structure ShipSprites where
  ow : ℤ
  oh : ℤ
  rotSprite : ℚ → Sprite

/-- `Spaceship.get_collision_rect_info` (src/spaceship.py lines 103-114):
the current rotated image together with the collision top-left corner
(logical position shifted by half the size difference between base and
rotated image; Python `//` is floor division). -/
def get_collision_rect_info (sp : ShipSprites) (s : ShipState) :
    Sprite × ℚ × ℚ :=
  let img := sp.rotSprite s.rotation
  (img,
   s.x + ((sp.ow.fdiv 2 : ℤ) : ℚ) - ((img.width.fdiv 2 : ℤ) : ℚ),
   s.y + ((sp.oh.fdiv 2 : ℤ) : ℚ) - ((img.height.fdiv 2 : ℤ) : ℚ))

/-- `Spaceship.is_within_screen_bounds` (src/spaceship.py lines 116-125). -/
def is_within_screen_bounds (sp : ShipSprites) (sw sh : ℤ) (s : ShipState) :
    Bool :=
  !(decide (s.x < 0) || decide ((sw : ℚ) < s.x + (sp.ow : ℚ)) ||
    decide (s.y < 0) || decide ((sh : ℚ) < s.y + (sp.oh : ℚ)))

/-- `Spaceship.get_boundary_collision_type` (src/spaceship.py
lines 127-143): which screen boundaries were crossed, per axis. -/
def get_boundary_collision_type (sp : ShipSprites) (sw sh : ℤ)
    (s : ShipState) : Bool × Bool :=
  (decide (s.x < 0) || decide ((sw : ℚ) < s.x + (sp.ow : ℚ)),
   decide (s.y < 0) || decide ((sh : ℚ) < s.y + (sp.oh : ℚ)))

/-- `Spaceship.check_collision_with_level` (src/spaceship.py
lines 161-169) as written: the two-variable binding applied to the
3-tuple returned by `check_spaceship_collisions`, so the call raises
`ValueError` instead of returning the solid flag. -/
def check_collision_with_level (lvl : Level) (sp : ShipSprites)
    (s : ShipState) : Except String Bool :=
  let info := get_collision_rect_info sp s
  match pyUnpack2 (tupleToList
      (check_spaceship_collisions lvl info.1 info.2.1 info.2.2)) with
  | Except.ok sc => Except.ok sc.1
  | Except.error e => Except.error e

/-- The value dataflow of `Spaceship.check_collision_with_level`
(src/spaceship.py lines 161-169) with the call's arity mismatch (settled
by the dedicated safety theorem) resolved positionally: the binding
`solid_collision, special_collision = ...` receives the solid component
of the 3-tuple, and the solid flag is returned. -/
def check_collision_with_level_resolved (lvl : Level) (sp : ShipSprites)
    (s : ShipState) : Bool :=
  let info := get_collision_rect_info sp s
  (check_spaceship_collisions lvl info.1 info.2.1 info.2.2).1

/-- `Spaceship._test_position_safe` (src/spaceship.py lines 222-236):
move to the test position, check collision there, restore; safe when no
solid collision. -/
def test_position_safe (lvl : Level) (sp : ShipSprites) (s : ShipState)
    (tx ty : ℚ) : Bool :=
  !check_collision_with_level_resolved lvl sp { s with x := tx, y := ty }

/-- The float routines of the `math` module used by the micro-search
(`sqrt`, and `cos`/`sin` composed with `radians`), abstracted: the search
structure does not depend on their values. -/
structure FloatOps where
  sqrt : ℚ → ℚ
  cosDeg : ℚ → ℚ
  sinDeg : ℚ → ℚ

/-- Python `range(a, b, 2)`: `a, a+2, ...` strictly below `b`. -/
def range2 (a b : ℤ) : List ℤ :=
  (List.range ((b - a + 1) / 2).toNat).map (fun i => a + 2 * i)

/-- The eight compass directions probed by the expanding-circle search
(src/spaceship.py line 243). -/
def COMPASS_ANGLES : List ℚ :=
  [0, 45, 90, 135, 180, 225, 270, 315]

/-- The velocity-direction loop of `find_collision_free_position`
(src/spaceship.py lines 211-217): walk the probe distances along the
normalized velocity direction, returning the first safe point. -/
def search_velocity_direction (lvl : Level) (sp : ShipSprites)
    (s : ShipState) (nvx nvy : ℚ) : List ℤ → Option (ℚ × ℚ)
  | [] => none
  | d :: rest =>
    let tx := s.x + nvx * (d : ℚ)
    let ty := s.y + nvy * (d : ℚ)
    if test_position_safe lvl sp s tx ty then some (tx, ty)
    else search_velocity_direction lvl sp s nvx nvy rest

/-- The inner angle loop of `Spaceship._expanding_circle_search`
(src/spaceship.py lines 243-249). -/
def search_angles (F : FloatOps) (lvl : Level) (sp : ShipSprites)
    (s : ShipState) (radius : ℤ) : List ℚ → Option (ℚ × ℚ)
  | [] => none
  | a :: rest =>
    let tx := s.x + (radius : ℚ) * F.cosDeg a
    let ty := s.y + (radius : ℚ) * F.sinDeg a
    if test_position_safe lvl sp s tx ty then some (tx, ty)
    else search_angles F lvl sp s radius rest

/-- `Spaceship._expanding_circle_search` (src/spaceship.py
lines 238-251): expanding radii, eight compass directions each. -/
def expanding_circle_search (F : FloatOps) (lvl : Level) (sp : ShipSprites)
    (s : ShipState) : List ℤ → Option (ℚ × ℚ)
  | [] => none
  | r :: rest =>
    match search_angles F lvl sp s r COMPASS_ANGLES with
    | some p => some p
    | none => expanding_circle_search F lvl sp s rest

/-- `Spaceship.find_collision_free_position` (src/spaceship.py
lines 189-220) with `max_distance = 25`: when the velocity magnitude
exceeds the 0.1 threshold, probe along the normalized velocity direction
at distances `range(1, max_distance+1, 2)`, accepting the first safe
point; otherwise, or on failure, run the expanding-circle search over
the same radii. -/
def find_collision_free_position (F : FloatOps) (lvl : Level)
    (sp : ShipSprites) (s : ShipState) (max_distance : ℤ) : Option (ℚ × ℚ) :=
  let velocity_magnitude := F.sqrt (s.velocity_x ^ 2 + s.velocity_y ^ 2)
  let fromVelocity :=
    if 0.1 < velocity_magnitude then
      search_velocity_direction lvl sp s
        (s.velocity_x / velocity_magnitude) (s.velocity_y / velocity_magnitude)
        (range2 1 (max_distance + 1))
    else none
  match fromVelocity with
  | some p => some p
  | none => expanding_circle_search F lvl sp s (range2 1 (max_distance + 1))

/-- `Spaceship.apply_rotation` (src/spaceship.py lines 56-78) with a
level present, over the resolved collision check: rotate by ±6 degrees
(`% 360`), and if the footprint at the unchanged position now collides,
move to the first safe point of the micro-search (position unchanged if
none is found). -/
def apply_rotation (F : FloatOps) (lvl : Level) (sp : ShipSprites)
    (rotate_left rotate_right : Bool) (s : ShipState) : ShipState :=
  let s1 :=
    if rotate_left then { s with rotation := pyMod (s.rotation + -ROTATION_SPEED) 360 }
    else if rotate_right then { s with rotation := pyMod (s.rotation + ROTATION_SPEED) 360 }
    else s
  if rotate_left || rotate_right then
    if check_collision_with_level_resolved lvl sp s1 then
      match find_collision_free_position F lvl sp s1 25 with
      | some p => { s1 with x := p.1, y := p.2 }
      | none => s1
    else s1
  else s1

/-- `GhostFrame` (src/ghost_system.py lines 4-10): one recorded sample. -/
structure GhostFrame where
  timestamp : ℤ
  x : ℚ
  y : ℚ
  rotation : ℚ
deriving DecidableEq

/-- One exported frame dictionary (src/ghost_system.py lines 52-60):
timestamp kept, `x`, `y`, `rotation` truncated with `int(...)`. -/
structure ExportedFrame where
  timestamp : ℤ
  x : ℤ
  y : ℤ
  rotation : ℤ
deriving DecidableEq

/-- `GhostRecorder.export_recording` (src/ghost_system.py lines 50-60). -/
def export_recording (frames : List GhostFrame) : List ExportedFrame :=
  frames.map (fun f => ⟨f.timestamp, pyInt f.x, pyInt f.y, pyInt f.rotation⟩)

/-- `GhostPlayback.load_playback_data` (src/ghost_system.py
lines 135-145): rebuild `GhostFrame`s from the dictionaries. -/
def load_playback_data (data : List ExportedFrame) : List GhostFrame :=
  data.map (fun d => ⟨d.timestamp, (d.x : ℚ), (d.y : ℚ), (d.rotation : ℚ)⟩)

/-- The frame loop of `GhostPlayback.get_current_ghost_state`
(src/ghost_system.py lines 124-130): walk `frames[cursor:]` keeping the
index of the last frame whose timestamp is within the playback time,
stopping at the first frame beyond it.  `idx` is the absolute index of
the head of the remaining list; `acc` the last accepted index
(`frames.index(frame)` — frame objects loaded by `load_playback_data`
are distinct, so `index` is the position in the walk). -/
def ghost_scan (t : ℤ) : List GhostFrame → ℕ → Option ℕ → Option ℕ
  | [], _, acc => acc
  | f :: rest, idx, acc =>
    if f.timestamp ≤ t then ghost_scan t rest (idx + 1) (some idx) else acc

/-- `GhostPlayback.get_current_ghost_state` (src/ghost_system.py
lines 115-132) for an active playback: given the loaded frames, the
stored `current_frame_index` and the elapsed playback time, return the
frame chosen by the scan (none when the scan accepts nothing) together
with the updated `current_frame_index`. -/
def get_current_ghost_state (frames : List GhostFrame) (cursor : ℕ)
    (t : ℤ) : Option GhostFrame × ℕ :=
  match ghost_scan t (frames.drop cursor) cursor none with
  | some i => (frames[i]?, i)
  | none => (none, cursor)

/-- Zero-padding to (at least) two digits, as Python `f"{n:02d}"` for
a natural number. -/
def pad2 (n : ℕ) : String :=
  if n < 10 then "0" ++ toString n else toString n

/-- Zero-padding to (at least) three digits, as Python `f"{n:03d}"` for
a natural number. -/
def pad3 (n : ℕ) : String :=
  if n < 10 then "00" ++ toString n
  else if n < 100 then "0" ++ toString n
  else toString n

/-- `GameTimer.format_timer` (src/timer.py lines 39-54) on non-negative
millisecond counts. -/
def format_timer (milliseconds : ℕ) : String :=
  let total_seconds := milliseconds / 1000
  let minutes := total_seconds / 60
  let seconds := total_seconds % 60
  let ms := milliseconds % 1000
  pad2 minutes ++ ":" ++ pad2 seconds ++ "." ++ pad3 ms

/-- The bounce-direction computation for level-geometry collisions
(src/game_state_manager.py lines 315-334), over the resolved positional
binding of the solid component: an axis bounces exactly when reverting
it alone (footprint at the previous coordinate on that axis, the new
coordinate on the other) clears the solid collision. -/
def geometry_bounce_flags (lvl : Level) (sp : ShipSprites) (s1 : ShipState)
    (img : Sprite) (cx cy : ℚ) : Bool × Bool :=
  let prev_collision_x :=
    s1.prev_x + ((sp.ow.fdiv 2 : ℤ) : ℚ) - ((img.width.fdiv 2 : ℤ) : ℚ)
  let solid_collision_x_back :=
    (check_spaceship_collisions lvl img prev_collision_x cy).1
  let prev_collision_y :=
    s1.prev_y + ((sp.oh.fdiv 2 : ℤ) : ℚ) - ((img.height.fdiv 2 : ℤ) : ℚ)
  let solid_collision_y_back :=
    (check_spaceship_collisions lvl img cx prev_collision_y).1
  (!solid_collision_x_back, !solid_collision_y_back)

/-- The footprint test of the per-tick collision step
(src/game_state_manager.py lines 275-279): `check_spaceship_collisions`
at the ship's current collision rect. -/
def current_footprint_collisions (lvl : Level) (sp : ShipSprites)
    (s1 : ShipState) : Bool × Bool × Bool :=
  let info := get_collision_rect_info sp s1
  check_spaceship_collisions lvl info.1 info.2.1 info.2.2

/-- The collision check/resolution region of
`GameStateManager.update_gameplay` (src/game_state_manager.py
lines 274-337) applied to the post-integration ship state, over the
resolved positional bindings: returns the resolved ship state and the
level-completed flag.  Special zones complete the level with no physics
response; otherwise boundary collisions take their per-axis boundary
flags and geometry collisions the isolated-axis reversion flags, and
`handle_collision` applies the response. -/
def resolve_collision (lvl : Level) (sp : ShipSprites) (sw sh : ℤ)
    (s1 : ShipState) : ShipState × Bool :=
  let col := current_footprint_collisions lvl sp s1
  let solid_collision := col.1
  let special_collision := col.2.1
  if special_collision then (s1, true)
  else
    let boundary := !is_within_screen_bounds sp sw sh s1
    let collision_occurred := boundary || solid_collision
    if collision_occurred then
      let info := get_collision_rect_info sp s1
      let bFlags :=
        if boundary then get_boundary_collision_type sp sw sh s1
        else geometry_bounce_flags lvl sp s1 info.1 info.2.1 info.2.2
      (handle_collision s1 bFlags.1 bFlags.2, false)
    else (s1, false)

/-- The tuple-unpacking assignment of the per-tick collision step
(src/game_state_manager.py line 277): bind the 3-tuple returned by
`check_spaceship_collisions` at the current collision rect to exactly
two variables. -/
def update_gameplay_collision_unpack (lvl : Level) (sp : ShipSprites)
    (s1 : ShipState) : Except String (Bool × Bool) :=
  pyUnpack2 (tupleToList (current_footprint_collisions lvl sp s1))

/-- The gameplay state touched by one tick of
`GameStateManager.update_gameplay`: ship, recorder buffer and flags. -/
structure GameState where
  ship : ShipState
  frames : List GhostFrame
  recording : Bool
  rec_start : ℤ
  level_completed : Bool
deriving DecidableEq

/-- One tick of `GameStateManager.update_gameplay`
(src/game_state_manager.py lines 259-341), over the resolved positional
bindings, with a loaded level and sprite: update the ship physics,
record a ghost frame (timestamped `now - rec_start`) while recording,
then run the collision check/resolution region; recording stops when a
special zone completes the level.  (The ghost-playback pose update of
lines 269-272 only drives the translucent ghost entity and is not part
of this state.) -/
def update_gameplay (lvl : Level) (sp : ShipSprites) (sw sh : ℤ)
    (dt : ℚ) (now : ℤ) (g : GameState) : GameState :=
  if g.level_completed then g
  else
    let s1 := spaceship_update dt g.ship
    let frames1 :=
      if g.recording then
        g.frames ++ [⟨now - g.rec_start, s1.x, s1.y, s1.rotation⟩]
      else g.frames
    let r := resolve_collision lvl sp sw sh s1
    { ship := r.1
      frames := frames1
      recording := g.recording && !r.2
      rec_start := g.rec_start
      level_completed := r.2 }

/-- Truncation of one ghost frame as performed by the export/load round
trip: the timestamp survives, the coordinates and rotation come back as
the `int(...)` truncations of the originals. -/
def trunc_frame (f : GhostFrame) : GhostFrame :=
  ⟨f.timestamp, (pyInt f.x : ℚ), (pyInt f.y : ℚ), (pyInt f.rotation : ℚ)⟩

/-- Written from the spec's words for the playback sampling contract:
the last frame of the sequence whose timestamp is at most the elapsed
playback time. -/
def last_frame_le (frames : List GhostFrame) (t : ℤ) : Option GhostFrame :=
  (frames.filter (fun f => decide (f.timestamp ≤ t))).getLast?

/-- Written from the spec's words for the micro-search: the probe points
along the normalized velocity direction, at the fixed distances. -/
def spec_velocity_probes (s : ShipState) (nvx nvy : ℚ) (ds : List ℤ) :
    List (ℚ × ℚ) :=
  ds.map (fun (d : ℤ) => (s.x + nvx * (d : ℚ), s.y + nvy * (d : ℚ)))

/-- Written from the spec's words for the micro-search fallback: the
expanding-ring probe points, eight compass directions per radius. -/
def spec_ring_probes (F : FloatOps) (s : ShipState) (rs : List ℤ) :
    List (ℚ × ℚ) :=
  rs.flatMap (fun (r : ℤ) => COMPASS_ANGLES.map
    (fun a => (s.x + (r : ℚ) * F.cosDeg a, s.y + (r : ℚ) * F.sinDeg a)))

/-! Concrete fixtures used by witnesses and counterexamples.  The
rational operations of Batteries are irreducible by default, which only
hides their definitions from `decide`'s evaluator; they are made
semireducible here so that closed statements about the embedded code
evaluate. -/

attribute [local semireducible] Rat.add Rat.mul Rat.sub Rat.inv
  Rat.ofScientific

/-- A 2×2 level whose only solid pixel is (1,1); everything else free. -/
def testLevel : Level :=
  ⟨2, 2, fun x y => if x = 1 ∧ y = 1 then (0, 0, 0) else (255, 255, 255)⟩

/-- A fully opaque 1×1 sprite. -/
def testSprite : Sprite := ⟨1, 1, fun _ _ => 255⟩

/-- Ship renderer data for the 1×1 sprite (rotation leaves it unchanged). -/
def testSprites : ShipSprites := ⟨1, 1, fun _ => testSprite⟩

/-- A ship at the origin moving diagonally with unit velocity. -/
def testShip : ShipState := ⟨0, 0, 0, 1, 1, 0, 0, -15, 15⟩

/-- A 50×50 level that is entirely free space. -/
def freeLevel : Level := ⟨50, 50, fun _ _ => (255, 255, 255)⟩

/-- A 2×2 level that is entirely solid. -/
def solidLevel : Level := ⟨2, 2, fun _ _ => (0, 0, 0)⟩

/-- A 2×2 level painted a color outside the palette. -/
def grayLevel : Level := ⟨2, 2, fun _ _ => (128, 128, 128)⟩

/-- Degenerate float routines (all zero) for closed instantiations of the
micro-search. -/
def zeroOps : FloatOps := ⟨fun _ => 0, fun _ => 0, fun _ => 0⟩

/-- A stationary ship at the origin. -/
def restShip : ShipState := ⟨0, 0, 0, 0, 0, 0, 0, -15, 15⟩

/-- A gameplay state with an active recording, started at tick 40. -/
def recState : GameState := ⟨testShip, [], true, 40, false⟩

/-- A two-frame recording with non-integral coordinates. -/
def ghostRecA : List GhostFrame := [⟨0, 3/2, 2, 7/2⟩, ⟨5, 1, 1, 1⟩]

/-- A three-frame loaded playback sequence with sorted timestamps. -/
def ghostRecB : List GhostFrame := [⟨0, 0, 0, 0⟩, ⟨3, 1, 1, 1⟩, ⟨7, 2, 2, 2⟩]

/-- A gameplay state in free space whose ship already moves at the
maximum velocity bound straight down. -/
def freeGameState : GameState := ⟨⟨5, 5, 0, 0, 15, 0, 0, -15, 15⟩, [], false, 0, false⟩

/-! Claim theorems. -/

/-- C2: `Level.check_spaceship_collisions` always returns a 3-tuple, and
both the per-tick collision step of `GameStateManager.update_gameplay`
and `Spaceship.check_collision_with_level` bind its result to exactly
two variables: with a loaded sprite every such invocation raises
`ValueError` from the unpacking, before any resolution is applied. -/
theorem C2_collision_calls_raise_unpack_error (lvl : Level)
    (sp : ShipSprites) (s : ShipState) :
    update_gameplay_collision_unpack lvl sp s =
      Except.error "ValueError: too many values to unpack (expected 2)" ∧
    check_collision_with_level lvl sp s =
      Except.error "ValueError: too many values to unpack (expected 2)" :=
  ⟨rfl, rfl⟩

/-- C3: on every collision handled by `Spaceship.handle_collision`
(boundary or geometry, any bounce flags) the position is rolled back
exactly to the stored previous position, and both velocity components
are damped in magnitude by the fixed constant 0.5, which lies in the
spec's 0.1-0.5 range. -/
theorem C3_full_rollback_and_damping (s : ShipState)
    (bounce_x bounce_y : Bool) :
    (handle_collision s bounce_x bounce_y).x = s.prev_x ∧
    (handle_collision s bounce_x bounce_y).y = s.prev_y ∧
    |(handle_collision s bounce_x bounce_y).velocity_x| =
      |s.velocity_x| * 0.5 ∧
    |(handle_collision s bounce_x bounce_y).velocity_y| =
      |s.velocity_y| * 0.5 ∧
    ((0.1 : ℚ) ≤ 0.5 ∧ (0.5 : ℚ) ≤ 0.5) := by
  cases bounce_x <;> cases bounce_y <;>
    simp [handle_collision, rollback_position, abs_mul, abs_neg] <;>
    norm_num

/-- C1 counterexample: a geometry corner collision where both isolated
reversion tests clear the collision, so both axes are in the bounce set,
yet the resolver leaves the y velocity un-negated (`+14/25`, not the
`-14/25` the claim's negate-every-axis clause requires): the
`if`/`elif` chain in `handle_collision` negates only x when both flags
are set. -/
theorem C1_both_axes_counterexample :
    geometry_bounce_flags testLevel testSprites (spaceship_update 1 testShip)
      (get_collision_rect_info testSprites (spaceship_update 1 testShip)).1
      (get_collision_rect_info testSprites (spaceship_update 1 testShip)).2.1
      (get_collision_rect_info testSprites (spaceship_update 1 testShip)).2.2 =
      (true, true) ∧
    (spaceship_update 1 testShip).velocity_y = 28 / 25 ∧
    (resolve_collision testLevel testSprites 10 10
      (spaceship_update 1 testShip)).1.velocity_y = 14 / 25 ∧
    (14 / 25 : ℚ) ≠ -(28 / 25) * 0.5 := by
  decide

/-- C1 amended: for geometry collisions the bounce flags are exactly the
two isolated-axis reversion tests (x iff the footprint at
(previous x, new y) is free of solid collision, y iff the footprint at
(new x, previous y) is), but the resolver's `if`/`elif`/`else` chain
negates the x velocity whenever the x flag is set or neither flag is
set, and negates the y velocity exactly when the x flag is clear — so
when both axes are in the bounce set only the x component is negated,
and both components are negated exactly when the set is empty. -/
theorem C1_bounce_resolution_amended (lvl : Level) (sp : ShipSprites)
    (sw sh : ℤ) (s1 : ShipState)
    (hspecial : (current_footprint_collisions lvl sp s1).2.1 = false)
    (hbounds : is_within_screen_bounds sp sw sh s1 = true)
    (hsolid : (current_footprint_collisions lvl sp s1).1 = true) :
    ∀ info flags, info = get_collision_rect_info sp s1 →
      flags = geometry_bounce_flags lvl sp s1 info.1 info.2.1 info.2.2 →
      (flags.1 = !(check_spaceship_collisions lvl info.1
          (s1.prev_x + ((sp.ow.fdiv 2 : ℤ) : ℚ) -
            ((info.1.width.fdiv 2 : ℤ) : ℚ)) info.2.2).1 ∧
       flags.2 = !(check_spaceship_collisions lvl info.1 info.2.1
          (s1.prev_y + ((sp.oh.fdiv 2 : ℤ) : ℚ) -
            ((info.1.height.fdiv 2 : ℤ) : ℚ))).1 ∧
       (resolve_collision lvl sp sw sh s1).1.velocity_x =
         (if flags.1 || !flags.2 then -s1.velocity_x else s1.velocity_x)
           * 0.5 ∧
       (resolve_collision lvl sp sw sh s1).1.velocity_y =
         (if !flags.1 then -s1.velocity_y else s1.velocity_y) * 0.5) := by
  intro info flags hinfo hflags
  have hb : (!is_within_screen_bounds sp sw sh s1) = false := by
    rw [hbounds]; rfl
  subst hinfo
  refine ⟨?_, ?_, ?_, ?_⟩
  · rw [hflags]; rfl
  · rw [hflags]; rfl
  · rw [hflags]
    rcases hg : geometry_bounce_flags lvl sp s1
        (get_collision_rect_info sp s1).1
        (get_collision_rect_info sp s1).2.1
        (get_collision_rect_info sp s1).2.2 with ⟨bx, byy⟩
    simp only [resolve_collision, hspecial, hsolid, hb, hg,
      Bool.false_or, if_false, if_true, Bool.false_eq_true, ite_false]
    cases bx <;> cases byy <;>
      simp [handle_collision, rollback_position]
  · rw [hflags]
    rcases hg : geometry_bounce_flags lvl sp s1
        (get_collision_rect_info sp s1).1
        (get_collision_rect_info sp s1).2.1
        (get_collision_rect_info sp s1).2.2 with ⟨bx, byy⟩
    simp only [resolve_collision, hspecial, hsolid, hb, hg,
      Bool.false_or, if_false, if_true, Bool.false_eq_true, ite_false]
    cases bx <;> cases byy <;>
      simp [handle_collision, rollback_position]

/-- C1 witness: the amended theorem instantiated at the corner-collision
fixture: the resolver's output velocities there. -/
theorem C1_bounce_resolution_amended_witness :
    (resolve_collision testLevel testSprites 10 10
      (spaceship_update 1 testShip)).1.velocity_y = 14 / 25 ∧
    (resolve_collision testLevel testSprites 10 10
      (spaceship_update 1 testShip)).1.velocity_x = -(1 : ℚ) * 0.5 := by
  have h := C1_bounce_resolution_amended testLevel testSprites 10 10
    (spaceship_update 1 testShip) (by decide) (by decide) (by decide)
    (get_collision_rect_info testSprites (spaceship_update 1 testShip))
    (geometry_bounce_flags testLevel testSprites (spaceship_update 1 testShip)
      (get_collision_rect_info testSprites (spaceship_update 1 testShip)).1
      (get_collision_rect_info testSprites (spaceship_update 1 testShip)).2.1
      (get_collision_rect_info testSprites (spaceship_update 1 testShip)).2.2)
    rfl rfl
  constructor
  · rw [h.2.2.2]; decide
  · rw [h.2.2.1]; decide

/-- C8: the per-tick update never invokes `clamp_velocity` — a full
collision-free tick from velocity already at the +15 bound leaves the
vertical velocity at 15.12, strictly above `max_velocity` (running the
defined-but-unused `clamp_velocity` would change the state), violating
the claimed post-tick bound invariant. -/
theorem C8_velocity_exceeds_bounds_after_tick :
    (update_gameplay freeLevel testSprites 100 100 1 0
      freeGameState).ship.velocity_y = 378 / 25 ∧
    freeGameState.ship.max_velocity <
      (update_gameplay freeLevel testSprites 100 100 1 0
        freeGameState).ship.velocity_y ∧
    clamp_velocity (update_gameplay freeLevel testSprites 100 100 1 0
        freeGameState).ship ≠
      (update_gameplay freeLevel testSprites 100 100 1 0
        freeGameState).ship := by
  decide

/-- C9 counterexample: a tick in which the resolver rolls the ship back
to (0,0), while the frame recorded in that same tick holds the
integrated position (1, 28/25): the recorder samples pre-resolution, not
post-resolution, state. -/
theorem C9_recorded_frame_counterexample :
    (update_gameplay testLevel testSprites 10 10 1 100 recState).frames =
      [⟨60, 1, 28 / 25, 0⟩] ∧
    (update_gameplay testLevel testSprites 10 10 1 100
      recState).ship.x = 0 ∧
    (1 : ℚ) ≠ 0 := by
  decide

/-- C9 amended: while recording, the frame appended by a gameplay tick
samples the post-integration, pre-resolution state: its (x, y, rotation)
are those of `spaceship_update` applied to the ship, and the collision
resolver then runs on exactly that state to produce the tick's final
ship. -/
theorem C9_recorder_samples_post_integration (lvl : Level)
    (sp : ShipSprites) (sw sh : ℤ) (dt : ℚ) (now : ℤ) (g : GameState)
    (hrec : g.recording = true) (hrun : g.level_completed = false) :
    (update_gameplay lvl sp sw sh dt now g).frames =
      g.frames ++ [⟨now - g.rec_start, (spaceship_update dt g.ship).x,
        (spaceship_update dt g.ship).y,
        (spaceship_update dt g.ship).rotation⟩] ∧
    (update_gameplay lvl sp sw sh dt now g).ship =
      (resolve_collision lvl sp sw sh (spaceship_update dt g.ship)).1 := by
  simp [update_gameplay, hrec, hrun]

/-- C9 witness: the amended theorem at the recording fixture. -/
theorem C9_recorder_samples_post_integration_witness :
    (update_gameplay testLevel testSprites 10 10 1 100 recState).frames =
      recState.frames ++ [⟨100 - recState.rec_start,
        (spaceship_update 1 recState.ship).x,
        (spaceship_update 1 recState.ship).y,
        (spaceship_update 1 recState.ship).rotation⟩] :=
  (C9_recorder_samples_post_integration testLevel testSprites 10 10 1 100
    recState (by decide) (by decide)).1

/-- C4: the point classifier returns SOLID for every out-of-bounds query
point; for in-bounds points whose pixel exactly equals a palette color it
returns that color's category, and for any pixel matching no palette
color it returns SOLID. -/
theorem C4_classify_policy (lvl : Level) (x y : ℚ) :
    ((x < 0 ∨ (lvl.width : ℚ) ≤ x ∨ y < 0 ∨ (lvl.height : ℚ) ≤ y) →
      check_collision_at_point lvl x y = SOLID) ∧
    (¬(x < 0 ∨ (lvl.width : ℚ) ≤ x ∨ y < 0 ∨ (lvl.height : ℚ) ≤ y) →
      ((∀ tc, tc ∈ COLLISION_COLORS →
          lvl.pix (pyInt x) (pyInt y) = tc.2 →
          check_collision_at_point lvl x y = tc.1) ∧
       ((∀ tc, tc ∈ COLLISION_COLORS →
          lvl.pix (pyInt x) (pyInt y) ≠ tc.2) →
          check_collision_at_point lvl x y = SOLID))) := by
  constructor
  · intro h
    unfold check_collision_at_point
    rw [if_pos h]
  · intro h
    constructor
    · intro tc hmem hpix
      fin_cases hmem <;>
        (unfold check_collision_at_point; rw [if_neg h]; simp only [hpix]) <;>
        rfl
    · intro hall
      have e1 : lvl.pix (pyInt x) (pyInt y) ≠ ((0, 0, 0) : Color) :=
        hall (SOLID, (0, 0, 0)) (by simp [COLLISION_COLORS])
      have e2 : lvl.pix (pyInt x) (pyInt y) ≠ ((255, 255, 255) : Color) :=
        hall (FREE, (255, 255, 255)) (by simp [COLLISION_COLORS])
      have e3 : lvl.pix (pyInt x) (pyInt y) ≠ ((0, 255, 0) : Color) :=
        hall (GOAL, (0, 255, 0)) (by simp [COLLISION_COLORS])
      have e4 : lvl.pix (pyInt x) (pyInt y) ≠ ((255, 0, 0) : Color) :=
        hall (HAZARD, (255, 0, 0)) (by simp [COLLISION_COLORS])
      have e5 : lvl.pix (pyInt x) (pyInt y) ≠ ((0, 0, 255) : Color) :=
        hall (SPECIAL, (0, 0, 255)) (by simp [COLLISION_COLORS])
      have d1 : decide (((0, 0, 0) : Color) = lvl.pix (pyInt x) (pyInt y))
          = false := decide_eq_false (fun hh => e1 hh.symm)
      have d2 : decide (((255, 255, 255) : Color) =
          lvl.pix (pyInt x) (pyInt y)) = false :=
        decide_eq_false (fun hh => e2 hh.symm)
      have d3 : decide (((0, 255, 0) : Color) = lvl.pix (pyInt x) (pyInt y))
          = false := decide_eq_false (fun hh => e3 hh.symm)
      have d4 : decide (((255, 0, 0) : Color) = lvl.pix (pyInt x) (pyInt y))
          = false := decide_eq_false (fun hh => e4 hh.symm)
      have d5 : decide (((0, 0, 255) : Color) = lvl.pix (pyInt x) (pyInt y))
          = false := decide_eq_false (fun hh => e5 hh.symm)
      unfold check_collision_at_point
      rw [if_neg h]
      simp only [COLLISION_COLORS, List.find?, d1, d2, d3, d4, d5]

/-- C4 witness: the classify policy at concrete points of the fixture
levels: out of bounds, a white pixel, a black pixel, and an off-palette
gray pixel. -/
theorem C4_classify_policy_witness :
    check_collision_at_point testLevel (-1) 0 = SOLID ∧
    check_collision_at_point testLevel 0 0 = FREE ∧
    check_collision_at_point testLevel 1 1 = SOLID ∧
    check_collision_at_point grayLevel 0 0 = SOLID := by
  refine ⟨(C4_classify_policy testLevel (-1) 0).1 (by decide),
    ((C4_classify_policy testLevel 0 0).2 (by decide)).1
      (FREE, (255, 255, 255)) (by decide) (by decide),
    ((C4_classify_policy testLevel 1 1).2 (by decide)).1
      (SOLID, (0, 0, 0)) (by decide) (by decide),
    ((C4_classify_policy grayLevel 0 0).2 (by decide)).2 (by decide)⟩

set_option maxRecDepth 4000 in
/-- C10: `format_timer` renders non-negative millisecond counts as
MM:SS.mmm — the scenario values 0 and 125999, the decomposition of any
in-range count into zero-padded minute/second fields and the truncated
(not rounded) millisecond remainder, and the exact field widths. -/
theorem C10_format_timer_mm_ss_mmm :
    format_timer 0 = "00:00.000" ∧
    format_timer 125999 = "02:05.999" ∧
    (∀ m s f : ℕ, m < 100 → s < 60 → f < 1000 →
      format_timer (60000 * m + 1000 * s + f) =
        pad2 m ++ ":" ++ pad2 s ++ "." ++ pad3 f) ∧
    (∀ m, m < 100 → (pad2 m).length = 2) ∧
    (∀ f, f < 1000 → (pad3 f).length = 3) := by
  refine ⟨by decide, by decide, ?_, by decide, by decide⟩
  intro m s f hm hs hf
  have h1 : (60000 * m + 1000 * s + f) / 1000 = 60 * m + s := by omega
  have h2 : (60 * m + s) / 60 = m := by omega
  have h3 : (60 * m + s) % 60 = s := by omega
  have h4 : (60000 * m + 1000 * s + f) % 1000 = f := by omega
  simp only [format_timer]
  rw [h1, h2, h3, h4]

/-- C10 witness: the decomposition applied at 2 minutes, 5 seconds,
999 milliseconds. -/
theorem C10_format_timer_mm_ss_mmm_witness :
    format_timer (60000 * 2 + 1000 * 5 + 999) =
      pad2 2 ++ ":" ++ pad2 5 ++ "." ++ pad3 999 :=
  C10_format_timer_mm_ss_mmm.2.2.1 2 5 999 (by decide) (by decide)
    (by decide)

/-! Helper lemmas about the playback scan. -/

/-- The playback scan returns the accumulator when no leading frame is
within the playback time, and otherwise the absolute index of the last
frame of the leading within-time run. -/
theorem ghost_scan_eq_takeWhile (t : ℤ) (l : List GhostFrame) (idx : ℕ)
    (acc : Option ℕ) :
    ghost_scan t l idx acc =
      match (l.takeWhile (fun f => decide (f.timestamp ≤ t))).length with
      | 0 => acc
      | Nat.succ k => some (idx + k) := by
  induction l generalizing idx acc with
  | nil => rfl
  | cons f rest ih =>
    by_cases hf : f.timestamp ≤ t
    · rw [ghost_scan, if_pos hf, ih]
      rw [List.takeWhile_cons, decide_eq_true hf]
      cases h : (rest.takeWhile (fun f => decide (f.timestamp ≤ t))).length with
      | zero => simp [h]
      | succ k =>
        simp only [h, if_true, List.length_cons]
        congr 1
        omega
    · rw [ghost_scan, if_neg hf]
      rw [List.takeWhile_cons, decide_eq_false hf]
      rfl

/-- `get_current_ghost_state` through the scan characterization. -/
theorem get_current_ghost_state_eq (frames : List GhostFrame) (c : ℕ)
    (t : ℤ) :
    get_current_ghost_state frames c t =
      match ((frames.drop c).takeWhile
          (fun f => decide (f.timestamp ≤ t))).length with
      | 0 => (none, c)
      | Nat.succ k => (frames[c + k]?, c + k) := by
  unfold get_current_ghost_state
  rw [ghost_scan_eq_takeWhile]
  cases h : ((frames.drop c).takeWhile
      (fun f => decide (f.timestamp ≤ t))).length with
  | zero => simp [h]
  | succ k => simp [h]

/-- A `takeWhile` run has length `k` when the predicate holds at every
index below `k` and fails at index `k`. -/
theorem takeWhile_length_eq_of_pred (p : GhostFrame → Bool)
    (l : List GhostFrame) (k : ℕ) (hk : k ≤ l.length)
    (h1 : ∀ j, j < k → ∀ f, l[j]? = some f → p f = true)
    (h2 : ∀ f, l[k]? = some f → p f = false) :
    (l.takeWhile p).length = k := by
  induction l generalizing k with
  | nil =>
    simp only [List.length_nil, Nat.le_zero] at hk
    simp [hk]
  | cons a tl ih =>
    cases k with
    | zero =>
      have ha : p a = false := h2 a (by simp)
      simp [List.takeWhile_cons, ha]
    | succ k' =>
      have hpa : p a = true := h1 0 (Nat.succ_pos _) a (by simp)
      have ih' := ih k' (by simpa using hk)
        (fun j hj f hf => h1 (j + 1) (by omega) f (by simpa using hf))
        (fun f hf => h2 f (by simpa using hf))
      simp [List.takeWhile_cons, hpa, ih']

/-- Inside the `takeWhile` run, indexing agrees with the base list. -/
theorem takeWhile_getElem?_eq (p : GhostFrame → Bool) (l : List GhostFrame)
    (j : ℕ) (hj : j < (l.takeWhile p).length) :
    (l.takeWhile p)[j]? = l[j]? := by
  obtain ⟨r, hr⟩ := List.takeWhile_prefix (l := l) (p := p)
  conv_rhs => rw [← hr]
  rw [List.getElem?_append, if_pos hj]

/-- The predicate holds at every index below the `takeWhile` length. -/
theorem pred_true_of_lt_takeWhile_length (p : GhostFrame → Bool)
    (l : List GhostFrame) (j : ℕ) (hj : j < (l.takeWhile p).length)
    (f : GhostFrame) (hf : l[j]? = some f) : p f = true := by
  have h1 : (l.takeWhile p)[j]? = some f := by
    rw [takeWhile_getElem?_eq p l j hj, hf]
  exact List.mem_takeWhile_imp (List.getElem?_mem h1)

/-- Dropping within the `takeWhile` run shortens it by exactly the
dropped amount. -/
theorem takeWhile_drop_length_eq (p : GhostFrame → Bool)
    (l : List GhostFrame) (c : ℕ) (hc : c ≤ (l.takeWhile p).length) :
    ((l.drop c).takeWhile p).length = (l.takeWhile p).length - c := by
  induction l generalizing c with
  | nil => simp
  | cons a tl ih =>
    cases c with
    | zero => simp
    | succ c' =>
      by_cases hpa : p a = true
      · simp only [List.takeWhile_cons, hpa, if_true, List.length_cons]
          at hc ⊢
        rw [List.drop_succ_cons, ih c' (by omega)]
        omega
      · have hpa' : p a = false := by revert hpa; cases p a <;> simp
        simp [List.takeWhile_cons, hpa'] at hc

/-- On a timestamp-sorted list, filtering by a time cutoff equals the
`takeWhile` run of the same predicate. -/
theorem sorted_filter_eq_takeWhile (t : ℤ) (l : List GhostFrame)
    (hs : List.Pairwise (fun a b => a.timestamp ≤ b.timestamp) l) :
    l.filter (fun f => decide (f.timestamp ≤ t)) =
      l.takeWhile (fun f => decide (f.timestamp ≤ t)) := by
  induction l with
  | nil => rfl
  | cons a tl ih =>
    rcases List.pairwise_cons.mp hs with ⟨ha, htl⟩
    by_cases hpa : a.timestamp ≤ t
    · simp [List.filter_cons, List.takeWhile_cons, decide_eq_true hpa,
        ih htl]
    · simp only [List.filter_cons, List.takeWhile_cons,
        decide_eq_false hpa, if_false, Bool.false_eq_true]
      rw [List.filter_eq_nil_iff]
      intro b hb
      have hab := ha b hb
      simp only [decide_eq_true_eq]
      omega

/-- On a timestamp-sorted list, a within-time frame at index `c` forces
the `takeWhile` run past `c`. -/
theorem sorted_lt_takeWhile_length (t : ℤ) (l : List GhostFrame)
    (hs : List.Pairwise (fun a b => a.timestamp ≤ b.timestamp) l) (c : ℕ)
    (f : GhostFrame) (hf : l[c]? = some f) (hft : f.timestamp ≤ t) :
    c < (l.takeWhile (fun g => decide (g.timestamp ≤ t))).length := by
  induction l generalizing c with
  | nil => simp at hf
  | cons a tl ih =>
    rcases List.pairwise_cons.mp hs with ⟨ha, htl⟩
    cases c with
    | zero =>
      simp only [List.getElem?_cons_zero, Option.some.injEq] at hf
      have hat : a.timestamp ≤ t := by rw [hf]; exact hft
      simp [List.takeWhile_cons, decide_eq_true hat]
    | succ c' =>
      rw [List.getElem?_cons_succ] at hf
      have hmem : f ∈ tl := List.getElem?_mem hf
      have hat : a.timestamp ≤ t := le_trans (ha f hmem) hft
      have := ih htl c' hf
      simp only [List.takeWhile_cons, decide_eq_true hat, if_true,
        List.length_cons]
      omega

/-- An empty `takeWhile` run means the list is empty or its head is
beyond the cutoff. -/
theorem head_beyond_of_takeWhile_nil (t : ℤ) (l : List GhostFrame)
    (h : l.takeWhile (fun f => decide (f.timestamp ≤ t)) = []) :
    l = [] ∨ ∃ f, l.head? = some f ∧ t < f.timestamp := by
  cases l with
  | nil => exact Or.inl rfl
  | cons a tl =>
    right
    refine ⟨a, rfl, ?_⟩
    by_contra hlt
    push_neg at hlt
    rw [List.takeWhile_cons, decide_eq_true hlt] at h
    simp at h

/-- A nonempty `takeWhile` run means the head exists and is within the
cutoff. -/
theorem head_within_of_takeWhile_pos (t : ℤ) (l : List GhostFrame)
    (h : 0 < (l.takeWhile (fun f => decide (f.timestamp ≤ t))).length) :
    ∃ f, l.head? = some f ∧ f.timestamp ≤ t := by
  cases l with
  | nil => simp at h
  | cons a tl =>
    refine ⟨a, rfl, ?_⟩
    by_contra hpa
    rw [List.takeWhile_cons, decide_eq_false hpa] at h
    simp at h

/-- C7: the playback cursor of `get_current_ghost_state` never
regresses, and — for a timestamp-sorted loaded sequence, from any cursor
that is 0 or rests on a frame already within the elapsed time (the only
cursors reachable by queries at non-decreasing times) — each query
returns the last frame whose timestamp is at most the elapsed playback
time, returning none exactly when there are no frames or the elapsed
time is still before the first frame's timestamp. -/
theorem C7_playback_monotone_and_last_frame (frames : List GhostFrame)
    (c : ℕ) (t : ℤ) :
    c ≤ (get_current_ghost_state frames c t).2 ∧
    (List.Pairwise (fun a b => a.timestamp ≤ b.timestamp) frames →
     (c = 0 ∨ ∃ f, frames[c]? = some f ∧ f.timestamp ≤ t) →
     ((get_current_ghost_state frames c t).1 = last_frame_le frames t ∧
      ((get_current_ghost_state frames c t).1 = none ↔
        frames = [] ∨ ∃ f, frames.head? = some f ∧ t < f.timestamp))) := by
  constructor
  · rw [get_current_ghost_state_eq]
    cases h : ((frames.drop c).takeWhile
        (fun f => decide (f.timestamp ≤ t))).length with
    | zero => simp
    | succ k => simp
  · intro hs hc
    rcases hc with rfl | ⟨fc, hfc, hts⟩
    · cases hm : (frames.takeWhile
          (fun f => decide (f.timestamp ≤ t))).length with
      | zero =>
        have htw : frames.takeWhile (fun f => decide (f.timestamp ≤ t))
            = [] := List.length_eq_zero.mp hm
        have hstate : get_current_ghost_state frames 0 t = (none, 0) := by
          rw [get_current_ghost_state_eq, List.drop_zero, hm]
        rw [hstate]
        refine ⟨?_, ?_⟩
        · show (none : Option GhostFrame) = last_frame_le frames t
          rw [last_frame_le, sorted_filter_eq_takeWhile t frames hs, htw]
          rfl
        · exact iff_of_true rfl (head_beyond_of_takeWhile_nil t frames htw)
      | succ k =>
        have hk_lt : k < (frames.takeWhile
            (fun f => decide (f.timestamp ≤ t))).length := by omega
        have hlen : (frames.takeWhile
            (fun f => decide (f.timestamp ≤ t))).length ≤ frames.length :=
          List.Sublist.length_le (List.takeWhile_sublist _)
        have hkf : k < frames.length := by omega
        have hfk : frames[k]? = some frames[k] :=
          List.getElem?_eq_getElem (by omega)
        have hstate : get_current_ghost_state frames 0 t
            = (frames[k]?, k) := by
          rw [get_current_ghost_state_eq, List.drop_zero, hm]
          show (frames[0 + k]?, 0 + k) = _
          rw [Nat.zero_add]
        rw [hstate]
        refine ⟨?_, ?_⟩
        · show frames[k]? = last_frame_le frames t
          rw [last_frame_le, sorted_filter_eq_takeWhile t frames hs,
            List.getLast?_eq_getElem?, hm]
          simp only [Nat.add_sub_cancel]
          exact (takeWhile_getElem?_eq _ _ _ hk_lt).symm
        · rw [hfk]
          refine iff_of_false (by simp) ?_
          intro hRHS
          rcases hRHS with hnil | ⟨f0, hf0, ht0⟩
          · rw [hnil] at hkf
            simp at hkf
          · obtain ⟨g, hg, hgt⟩ :=
              head_within_of_takeWhile_pos t frames (by omega)
            rw [hf0] at hg
            injection hg with hg
            rw [hg] at ht0
            omega
    · have hc_lt := sorted_lt_takeWhile_length t frames hs c fc hfc hts
      have hdrop := takeWhile_drop_length_eq
        (fun f => decide (f.timestamp ≤ t)) frames c (le_of_lt hc_lt)
      have hlen : (frames.takeWhile
          (fun f => decide (f.timestamp ≤ t))).length ≤ frames.length :=
        List.Sublist.length_le (List.takeWhile_sublist _)
      have hstate : get_current_ghost_state frames c t
          = (frames[(frames.takeWhile
              (fun f => decide (f.timestamp ≤ t))).length - 1]?,
             (frames.takeWhile
              (fun f => decide (f.timestamp ≤ t))).length - 1) := by
        rw [get_current_ghost_state_eq, hdrop]
        have h1 : (frames.takeWhile
            (fun f => decide (f.timestamp ≤ t))).length - c
            = ((frames.takeWhile
                (fun f => decide (f.timestamp ≤ t))).length - c - 1) + 1 := by
          omega
        rw [h1]
        show (frames[c + ((frames.takeWhile
            (fun f => decide (f.timestamp ≤ t))).length - c - 1)]?,
          c + ((frames.takeWhile
            (fun f => decide (f.timestamp ≤ t))).length - c - 1)) = _
        have h2 : c + ((frames.takeWhile
            (fun f => decide (f.timestamp ≤ t))).length - c - 1)
            = (frames.takeWhile
               (fun f => decide (f.timestamp ≤ t))).length - 1 := by
          omega
        rw [h2]
      rw [hstate]
      refine ⟨?_, ?_⟩
      · show frames[(frames.takeWhile
            (fun f => decide (f.timestamp ≤ t))).length - 1]?
            = last_frame_le frames t
        rw [last_frame_le, sorted_filter_eq_takeWhile t frames hs,
          List.getLast?_eq_getElem?]
        exact (takeWhile_getElem?_eq _ _ _ (by omega)).symm
      · have hfl : frames[(frames.takeWhile
            (fun f => decide (f.timestamp ≤ t))).length - 1]?
            = some (frames.get ⟨(frames.takeWhile
                (fun f => decide (f.timestamp ≤ t))).length - 1, by omega⟩) :=
          List.getElem?_eq_getElem (by omega)
        rw [hfl]
        refine iff_of_false (by simp) ?_
        intro hRHS
        rcases hRHS with hnil | ⟨f0, hf0, ht0⟩
        · rw [hnil] at hfc
          simp at hfc
        · obtain ⟨g, hg, hgt⟩ :=
            head_within_of_takeWhile_pos t frames (by omega)
          rw [hf0] at hg
          injection hg with hg
          rw [hg] at ht0
          omega

/-- C7 witness: the theorem at the three-frame fixture, cursor 1,
elapsed time 5: the cursor stays at 1 and the middle frame (the last one
with timestamp at most 5) is returned. -/
theorem C7_playback_monotone_and_last_frame_witness :
    1 ≤ (get_current_ghost_state ghostRecB 1 5).2 ∧
    (get_current_ghost_state ghostRecB 1 5).1 = last_frame_le ghostRecB 5 := by
  have h := C7_playback_monotone_and_last_frame ghostRecB 1 5
  exact ⟨h.1, (h.2 (by decide)
    (Or.inr ⟨⟨3, 1, 1, 1⟩, by decide, by decide⟩)).1⟩

/-- C6 counterexample: a one-frame recording at x = 1/2 round-trips
through export/load to x = 0; sampling playback at the original
timestamp returns (0, 0, 0), not the original (1/2, 0, 0). -/
theorem C6_roundtrip_counterexample :
    (get_current_ghost_state
      (load_playback_data (export_recording [⟨0, 1/2, 0, 0⟩])) 0 0).1 =
      some ⟨0, 0, 0, 0⟩ ∧
    (⟨0, 0, 0, 0⟩ : GhostFrame) ≠ ⟨0, 1/2, 0, 0⟩ := by
  decide

/-- C6 amended: for recordings with strictly increasing timestamps,
exporting, loading the export as playback data and sampling at an
original frame's timestamp (from any cursor at or before that frame)
reproduces the frame's timestamp together with the `int(...)`-truncated
x, y and rotation — the truncations introduced by `export_recording` —
rather than the original float values. -/
theorem C6_roundtrip_reproduces_truncations (frames : List GhostFrame)
    (hs : List.Pairwise (fun a b => a.timestamp < b.timestamp) frames)
    (i c : ℕ) (f : GhostFrame) (hif : frames[i]? = some f) (hc : c ≤ i) :
    get_current_ghost_state (load_playback_data (export_recording frames))
      c f.timestamp = (some (trunc_frame f), i) := by
  have hmap : load_playback_data (export_recording frames)
      = frames.map trunc_frame := by
    rw [load_playback_data, export_recording, List.map_map]
    rfl
  have hi_lt : i < frames.length := by
    by_contra hcon
    push_neg at hcon
    rw [List.getElem?_eq_none hcon] at hif
    cases hif
  have hgetf : frames[i] = f := by
    obtain ⟨_, hh⟩ := List.getElem?_eq_some.mp hif
    exact hh
  have hpair := List.pairwise_iff_getElem.mp hs
  have htw : ((frames.map trunc_frame).takeWhile
      (fun g => decide (g.timestamp ≤ f.timestamp))).length = i + 1 := by
    apply takeWhile_length_eq_of_pred
    · rw [List.length_map]
      omega
    · intro j hj g hg
      rw [List.getElem?_map] at hg
      cases hj' : frames[j]? with
      | none => rw [hj'] at hg; cases hg
      | some fj =>
        rw [hj'] at hg
        simp only [Option.map_some'] at hg
        have hj_lt : j < frames.length := by
          by_contra hcon
          push_neg at hcon
          rw [List.getElem?_eq_none hcon] at hj'
          cases hj'
        have hfj : frames[j] = fj := by
          obtain ⟨_, hh⟩ := List.getElem?_eq_some.mp hj'
          exact hh
        have hts_le : fj.timestamp ≤ f.timestamp := by
          rcases Nat.lt_or_ge j i with hji | hji
          · have hlt := hpair j i hj_lt hi_lt hji
            rw [hfj, hgetf] at hlt
            omega
          · have hji' : j = i := by omega
            rw [hji'] at hj'
            have hfe := hif.symm.trans hj'
            injection hfe with hfe
            rw [← hfe]
        injection hg with hg2
        rw [← hg2]
        exact decide_eq_true hts_le
    · intro g hg
      rw [List.getElem?_map] at hg
      cases hj' : frames[i + 1]? with
      | none => rw [hj'] at hg; cases hg
      | some fj =>
        rw [hj'] at hg
        simp only [Option.map_some'] at hg
        have hj_lt : i + 1 < frames.length := by
          by_contra hcon
          push_neg at hcon
          rw [List.getElem?_eq_none hcon] at hj'
          cases hj'
        have hfj : frames[i + 1] = fj := by
          obtain ⟨_, hh⟩ := List.getElem?_eq_some.mp hj'
          exact hh
        have hlt : f.timestamp < fj.timestamp := by
          have hp := hpair i (i + 1) hi_lt hj_lt (by omega)
          rw [hgetf, hfj] at hp
          exact hp
        injection hg with hg2
        rw [← hg2]
        apply decide_eq_false
        show ¬(fj.timestamp ≤ f.timestamp)
        omega
  have hdrop := takeWhile_drop_length_eq
    (fun g => decide (g.timestamp ≤ f.timestamp)) (frames.map trunc_frame)
    c (by rw [htw]; omega)
  have hstate : get_current_ghost_state (frames.map trunc_frame) c
      f.timestamp = ((frames.map trunc_frame)[i]?, i) := by
    rw [get_current_ghost_state_eq, hdrop, htw]
    have h1 : i + 1 - c = (i - c) + 1 := by omega
    rw [h1]
    show ((frames.map trunc_frame)[c + (i - c)]?, c + (i - c)) = _
    have h2 : c + (i - c) = i := by omega
    rw [h2]
  rw [hmap, hstate, List.getElem?_map, hif]
  rfl

/-- C6 witness: the amended theorem at the two-frame fixture: sampling
the round trip at the first frame's timestamp yields its truncation
(1, 2, 3) of (3/2, 2, 7/2). -/
theorem C6_roundtrip_reproduces_truncations_witness :
    get_current_ghost_state (load_playback_data (export_recording ghostRecA))
      0 ((⟨0, 3/2, 2, 7/2⟩ : GhostFrame).timestamp) =
      (some ⟨0, 1, 2, 3⟩, 0) := by
  have h := C6_roundtrip_reproduces_truncations ghostRecA (by decide) 0 0
    ⟨0, 3/2, 2, 7/2⟩ (by decide) (by decide)
  rw [h]
  decide

/-! Helper lemmas for the micro-search refinement. -/

/-- Finding in a concatenation: a hit in the left part wins. -/
theorem find?_append_some {α : Type} (p : α → Bool) (l₁ l₂ : List α)
    (a : α) (h : l₁.find? p = some a) : (l₁ ++ l₂).find? p = some a := by
  induction l₁ with
  | nil => simp at h
  | cons x xs ih =>
    cases hx : p x with
    | false =>
      simp only [List.find?_cons, hx] at h
      simp only [List.cons_append, List.find?_cons, hx]
      exact ih h
    | true =>
      simp only [List.find?_cons, hx] at h
      simp only [List.cons_append, List.find?_cons, hx]
      exact h

/-- Finding in a concatenation: a miss in the left part defers to the
right part. -/
theorem find?_append_none {α : Type} (p : α → Bool) (l₁ l₂ : List α)
    (h : l₁.find? p = none) : (l₁ ++ l₂).find? p = l₂.find? p := by
  induction l₁ with
  | nil => simp
  | cons x xs ih =>
    cases hx : p x with
    | false =>
      simp only [List.find?_cons, hx] at h
      simp only [List.cons_append, List.find?_cons, hx]
      exact ih h
    | true =>
      simp only [List.find?_cons, hx] at h
      cases h

/-- The velocity-direction loop is the first hit over the spec's
velocity probe points. -/
theorem search_velocity_eq_find (lvl : Level) (sp : ShipSprites)
    (s : ShipState) (nvx nvy : ℚ) (ds : List ℤ) :
    search_velocity_direction lvl sp s nvx nvy ds =
      (spec_velocity_probes s nvx nvy ds).find?
        (fun q => test_position_safe lvl sp s q.1 q.2) := by
  induction ds with
  | nil => rfl
  | cons d rest ih =>
    cases hb : test_position_safe lvl sp s (s.x + nvx * (d : ℚ))
        (s.y + nvy * (d : ℚ)) with
    | false =>
      simp [search_velocity_direction, spec_velocity_probes,
        List.find?_cons, hb, ih]
    | true =>
      simp [search_velocity_direction, spec_velocity_probes,
        List.find?_cons, hb]

/-- The angle loop is the first hit over one ring of probe points. -/
theorem search_angles_eq_find (F : FloatOps) (lvl : Level)
    (sp : ShipSprites) (s : ShipState) (radius : ℤ) (as_ : List ℚ) :
    search_angles F lvl sp s radius as_ =
      (as_.map (fun a => (s.x + (radius : ℚ) * F.cosDeg a,
          s.y + (radius : ℚ) * F.sinDeg a))).find?
        (fun q => test_position_safe lvl sp s q.1 q.2) := by
  induction as_ with
  | nil => rfl
  | cons a rest ih =>
    cases hb : test_position_safe lvl sp s
        (s.x + (radius : ℚ) * F.cosDeg a)
        (s.y + (radius : ℚ) * F.sinDeg a) with
    | false =>
      simp [search_angles, List.find?_cons, hb, ih]
    | true =>
      simp [search_angles, List.find?_cons, hb]

/-- The expanding-circle loop is the first hit over the spec's ring
probe points. -/
theorem expanding_circle_eq_find (F : FloatOps) (lvl : Level)
    (sp : ShipSprites) (s : ShipState) (rs : List ℤ) :
    expanding_circle_search F lvl sp s rs =
      (spec_ring_probes F s rs).find?
        (fun q => test_position_safe lvl sp s q.1 q.2) := by
  induction rs with
  | nil => rfl
  | cons r rest ih =>
    rw [expanding_circle_search, search_angles_eq_find]
    cases h : (COMPASS_ANGLES.map (fun a => (s.x + (r : ℚ) * F.cosDeg a,
        s.y + (r : ℚ) * F.sinDeg a))).find?
        (fun q => test_position_safe lvl sp s q.1 q.2) with
    | some q =>
      rw [spec_ring_probes, List.flatMap_cons,
        find?_append_some _ _ _ _ h]
    | none =>
      rw [spec_ring_probes, List.flatMap_cons, find?_append_none _ _ _ h,
        ih, spec_ring_probes]

/-- The whole micro-search is the first hit over the velocity probes
(present only above the speed threshold) followed by the ring probes. -/
theorem find_collision_free_eq_find (F : FloatOps) (lvl : Level)
    (sp : ShipSprites) (s1 : ShipState) :
    find_collision_free_position F lvl sp s1 25 =
      ((if 0.1 < F.sqrt (s1.velocity_x ^ 2 + s1.velocity_y ^ 2) then
          spec_velocity_probes s1
            (s1.velocity_x / F.sqrt (s1.velocity_x ^ 2 + s1.velocity_y ^ 2))
            (s1.velocity_y / F.sqrt (s1.velocity_x ^ 2 + s1.velocity_y ^ 2))
            (range2 1 (25 + 1))
        else []) ++ spec_ring_probes F s1 (range2 1 (25 + 1))).find?
        (fun q => test_position_safe lvl sp s1 q.1 q.2) := by
  unfold find_collision_free_position
  by_cases hmag : (0.1 : ℚ) < F.sqrt (s1.velocity_x ^ 2 + s1.velocity_y ^ 2)
  · simp only [if_pos hmag]
    rw [search_velocity_eq_find]
    cases h : (spec_velocity_probes s1
        (s1.velocity_x / F.sqrt (s1.velocity_x ^ 2 + s1.velocity_y ^ 2))
        (s1.velocity_y / F.sqrt (s1.velocity_x ^ 2 + s1.velocity_y ^ 2))
        (range2 1 (25 + 1))).find?
        (fun q => test_position_safe lvl sp s1 q.1 q.2) with
    | some q => rw [find?_append_some _ _ _ _ h]
    | none => rw [find?_append_none _ _ _ h, expanding_circle_eq_find]
  · simp only [if_neg hmag]
    rw [List.nil_append, expanding_circle_eq_find]

/-- C5: applying a rotation delta turns the rotation by ±6 degrees
(mod 360); when the footprint at the unchanged position then reports a
solid collision the ship moves to the first safe probe point — along
the normalized velocity direction at distances 1, 3, ..., 25 only when
the velocity magnitude exceeds 0.1, then around expanding rings at the
eight compass directions with radii 1, 3, ..., 25 — and when no probed
point is safe (or no collision arises) the position is unchanged and
the rotation is kept. -/
theorem C5_rotation_micro_search (F : FloatOps) (lvl : Level)
    (sp : ShipSprites) (s : ShipState) (rotate_left rotate_right : Bool) :
    ∀ s1, s1 = (if rotate_left then
        { s with rotation := pyMod (s.rotation + -ROTATION_SPEED) 360 }
      else if rotate_right then
        { s with rotation := pyMod (s.rotation + ROTATION_SPEED) 360 }
      else s) →
    (((rotate_left || rotate_right) = false ∨
        check_collision_with_level_resolved lvl sp s1 = false) →
      apply_rotation F lvl sp rotate_left rotate_right s = s1) ∧
    ((rotate_left || rotate_right) = true →
      check_collision_with_level_resolved lvl sp s1 = true →
      apply_rotation F lvl sp rotate_left rotate_right s =
        (match ((if 0.1 < F.sqrt (s1.velocity_x ^ 2 + s1.velocity_y ^ 2) then
            spec_velocity_probes s1
              (s1.velocity_x /
                F.sqrt (s1.velocity_x ^ 2 + s1.velocity_y ^ 2))
              (s1.velocity_y /
                F.sqrt (s1.velocity_x ^ 2 + s1.velocity_y ^ 2))
              (range2 1 (25 + 1))
          else []) ++ spec_ring_probes F s1 (range2 1 (25 + 1))).find?
            (fun q => test_position_safe lvl sp s1 q.1 q.2) with
         | some q => { s1 with x := q.1, y := q.2 }
         | none => s1)) := by
  intro s1 hs1
  subst hs1
  constructor
  · intro hcase
    rcases hcase with hno | hsafe
    · cases rotate_left <;> cases rotate_right <;> simp at hno
      simp [apply_rotation]
    · cases rotate_left <;> cases rotate_right <;>
        simp only [Bool.false_eq_true, if_false, if_true] at hsafe ⊢ <;>
        simp [apply_rotation, hsafe]
  · intro happ hcol
    rw [← find_collision_free_eq_find]
    cases rotate_left <;> cases rotate_right <;>
      simp only [Bool.false_eq_true, if_false, if_true] at hcol ⊢ <;>
      simp [apply_rotation, hcol] at happ ⊢

/-- C5 witness: with a fully solid level and degenerate float routines,
rotating the resting ship right leaves every probe unsafe, so the
rotation is kept and the position is unchanged. -/
theorem C5_rotation_micro_search_witness :
    apply_rotation zeroOps solidLevel testSprites false true restShip =
      { restShip with rotation := pyMod (restShip.rotation + ROTATION_SPEED) 360 } := by
  have h := (C5_rotation_micro_search zeroOps solidLevel testSprites
      restShip false true
      { restShip with rotation := pyMod (restShip.rotation + ROTATION_SPEED) 360 }
      rfl).2 (by decide) (by decide)
  rw [h]
  decide

end Gravitation
